import Mathlib

/-!
# Bridge STAAD Builder — verification of the truss geometry generator

Shallow embedding of `src/FEBRUARY 14-15/MOTOL/main.py`: the pure geometry
generator `compute_geometry` (main.py:60-148) and the export sequence
`run_in_staad` (main.py:155-290).

Modelling conventions: Python floats are idealised as real numbers,
`math.sin` as `Real.sin`, and Python `round(x, 4)` (ties to even) as
`round4`.  The external STAAD.Pro service is modelled by the ordered trace
of calls the exporter issues (`SCall`); the service itself is assumed
reachable and every service call is assumed to succeed, so the model
captures exactly which calls the exporter performs and in which order.
-/

namespace Motol

noncomputable section

/-- The four bridge topologies (`BRIDGE_TYPES`, main.py:53).
`compute_geometry` dispatches on the lowercased first word of the display
string (`btype_key`, main.py:68): "pratt", "warren", "howe", "bowstring". -/
inductive BType where
  | pratt
  | warren
  | howe
  | bowstring
deriving DecidableEq

/-- Python `round(x, 4)` (round half to even), idealised over `ℝ`:
scale by `10000`, round to the nearest integer taking ties to the even
integer, scale back. -/
def round4 (x : ℝ) : ℝ :=
  ((if Int.fract (x * 10000) = 1 / 2
    then 2 * round (x * 10000 / 2)
    else round (x * 10000) : ℤ) : ℝ) / 10000

/-- `panel_w = span / panels` (main.py:62), as real division; the Python
`ZeroDivisionError` for `panels = 0` is captured by `compute_geometry`. -/
def panelW (span : ℝ) (panels : ℕ) : ℝ := span / panels

/-- Node id of `bottom[i]`: node ids are assigned sequentially starting at 1
and the bottom chord is laid out first (main.py:63-74). -/
def bIdx (i : ℕ) : ℕ := 1 + i

/-- Node id of `top[i]`: the sequential numbering continues after the
`panels + 1` bottom nodes (main.py:76-92). -/
def tIdx (panels i : ℕ) : ℕ := panels + 2 + i

/-- Bottom chord nodes (main.py:71-74): `panels + 1` nodes at
`x = round(i * panel_w, 4)`, `y = 0.0`, `z = 0.0`. -/
def bottomNodes (span : ℝ) (panels : ℕ) : List (ℕ × ℝ × ℝ × ℝ) :=
  (List.range (panels + 1)).map fun i =>
    (bIdx i, round4 ((i : ℝ) * panelW span panels), 0, 0)

/-- Top chord nodes (main.py:77-92), by topology: Warren has `panels` apex
nodes at `x = round((i + 0.5) * panel_w, 4)` and `y = float(height)`
(unrounded, main.py:80); Bowstring has `panels + 1` nodes with
`y = round(height * sin((i / panels) * pi), 4)` (main.py:85); Pratt and
Howe fall into the `else` branch with `panels + 1` nodes at
`y = float(height)` (unrounded, main.py:91). -/
def topNodes (span height : ℝ) (panels : ℕ) (b : BType) : List (ℕ × ℝ × ℝ × ℝ) :=
  match b with
  | .warren =>
      (List.range panels).map fun i =>
        (tIdx panels i, round4 (((i : ℝ) + 0.5) * panelW span panels), height, 0)
  | .bowstring =>
      (List.range (panels + 1)).map fun i =>
        (tIdx panels i, round4 ((i : ℝ) * panelW span panels),
          round4 (height * Real.sin (((i : ℝ) / (panels : ℝ)) * Real.pi)), 0)
  | _ =>
      (List.range (panels + 1)).map fun i =>
        (tIdx panels i, round4 ((i : ℝ) * panelW span panels), height, 0)

/-- Bottom chord members (main.py:102-104): member ids start at 1, one
member per panel connecting consecutive bottom nodes. -/
def botChMembers (panels : ℕ) : List (ℕ × ℕ × ℕ) :=
  (List.range panels).map fun i => (1 + i, bIdx i, bIdx (i + 1))

/-- Warren top chords (main.py:107-109): `panels - 1` members between
consecutive apex nodes, member ids continuing after the bottom chords. -/
def warrenTopCh (panels : ℕ) : List (ℕ × ℕ × ℕ) :=
  (List.range (panels - 1)).map fun i =>
    (panels + 1 + i, tIdx panels i, tIdx panels (i + 1))

/-- Warren diagonals (main.py:110-113): each panel `i` contributes
`bottom[i] → top[i]` and then `top[i] → bottom[i+1]`, member ids
interleaved in that order after the `panels + (panels - 1)` chords. -/
def warrenDiagMembers (panels : ℕ) : List (ℕ × ℕ × ℕ) :=
  (List.range panels).flatMap fun i =>
    [(2 * panels + 2 * i, bIdx i, tIdx panels i),
     (2 * panels + 2 * i + 1, tIdx panels i, bIdx (i + 1))]

/-- Pratt/Howe/Bowstring top chords (main.py:115-118 and 137-140):
`panels` members between consecutive top nodes. -/
def topChMembers (panels : ℕ) : List (ℕ × ℕ × ℕ) :=
  (List.range panels).map fun i =>
    (panels + 1 + i, tIdx panels i, tIdx panels (i + 1))

/-- Pratt/Howe verticals and Bowstring hangers (main.py:119-121 and
141-143): `panels + 1` members `bottom[i] → top[i]`. -/
def vertMembers (panels : ℕ) : List (ℕ × ℕ × ℕ) :=
  (List.range (panels + 1)).map fun i =>
    (2 * panels + 1 + i, bIdx i, tIdx panels i)

/-- Endpoints of the Pratt/Howe diagonal of panel `i` (main.py:123-134),
with `half = panels // 2`: Pratt uses `top[i] → bottom[i+1]` for panels
before the midpoint and `bottom[i] → top[i+1]` from the midpoint on; Howe
uses the opposite assignment. -/
def phDiag (b : BType) (panels half i : ℕ) : ℕ × ℕ :=
  match b with
  | .pratt =>
      if i < half then (tIdx panels i, bIdx (i + 1))
      else (bIdx i, tIdx panels (i + 1))
  | _ =>
      if i < half then (bIdx i, tIdx panels (i + 1))
      else (tIdx panels i, bIdx (i + 1))

/-- Pratt/Howe diagonals (main.py:122-135): exactly one per panel. -/
def phDiagMembers (panels : ℕ) (b : BType) : List (ℕ × ℕ × ℕ) :=
  (List.range panels).map fun i =>
    (3 * panels + 2 + i, phDiag b panels (panels / 2) i)

/-- Bowstring diagonals (main.py:144-146): `bottom[i] → top[i+1]`, one per
panel, all sloping the same direction. -/
def bowDiagMembers (panels : ℕ) : List (ℕ × ℕ × ℕ) :=
  (List.range panels).map fun i =>
    (3 * panels + 2 + i, bIdx i, tIdx panels (i + 1))

/-- Generator output (main.py:148): the node table, the member table and
the node / member role lists, each in creation order. -/
structure Geometry where
  nodes : List (ℕ × ℝ × ℝ × ℝ)
  members : List (ℕ × ℕ × ℕ)
  bottom : List ℕ
  top : List ℕ
  botCh : List ℕ
  topCh : List ℕ
  verts : List ℕ
  diags : List ℕ

/-- Body of `compute_geometry` (main.py:60-148): bottom nodes then top
nodes; bottom chords then the topology-specific members.  The `verts` role
list stays empty for Warren (the source never appends to it in that
branch). -/
def computeGeometryCore (span height : ℝ) (panels : ℕ) (b : BType) : Geometry where
  nodes := bottomNodes span panels ++ topNodes span height panels b
  members := botChMembers panels ++
    (match b with
     | .warren => warrenTopCh panels ++ warrenDiagMembers panels
     | .bowstring => topChMembers panels ++ vertMembers panels ++ bowDiagMembers panels
     | _ => topChMembers panels ++ vertMembers panels ++ phDiagMembers panels b)
  bottom := (bottomNodes span panels).map (·.1)
  top := (topNodes span height panels b).map (·.1)
  botCh := (botChMembers panels).map (·.1)
  topCh := ((match b with
    | .warren => warrenTopCh panels
    | _ => topChMembers panels : List (ℕ × ℕ × ℕ))).map (·.1)
  verts := ((match b with
    | .warren => ([] : List (ℕ × ℕ × ℕ))
    | _ => vertMembers panels : List (ℕ × ℕ × ℕ))).map (·.1)
  diags := ((match b with
    | .warren => warrenDiagMembers panels
    | .bowstring => bowDiagMembers panels
    | _ => phDiagMembers panels b : List (ℕ × ℕ × ℕ))).map (·.1)

/-- `compute_geometry` (main.py:60-148).  With `panels = 0` the very first
statement `panel_w = span / panels` raises `ZeroDivisionError`, modelled
as `none`; otherwise the geometry is produced.  The source performs no
other validation: non-positive `span` or `height` are accepted silently. -/
def compute_geometry (span height : ℝ) (panels : ℕ) (b : BType) : Option Geometry :=
  if panels = 0 then none else some (computeGeometryCore span height panels b)

/-- Exporter configuration (the `cfg` dict, main.py:163-176, built by the
GUI at main.py:708-722). -/
structure Config where
  bridge_type : BType
  span : ℝ
  height : ℝ
  panels : ℕ
  unit : String
  support_left : String
  support_right : String
  chord_sec : String
  diag_sec : String
  dead_load : ℝ
  live_load : ℝ
  wind_load : ℝ
  self_weight : Bool

/-- `UNIT_OPTIONS` (main.py:48-52); `none` models the `KeyError` an
unknown key would raise at main.py:178. -/
def UNIT_OPTIONS (u : String) : Option (ℕ × ℕ) :=
  if u = "Feet / Kip" then some (1, 0)
  else if u = "Meter / kN" then some (5, 4)
  else if u = "Inches / Kip" then some (0, 0)
  else none

/-- One call issued to the external STAAD service (main.py:187-278).
Service-returned handles (property, release-spec, support and load-case
ids) are modelled as the small sequential integers the call sites use. -/
inductive SCall where
  | connect
  | setInputUnits (lu fu : ℕ)
  | saveModel
  | createNode (nid : ℕ) (x y z : ℝ)
  | createBeam (mid n1 n2 : ℕ)
  | createBeamProperty (country : ℕ) (sec : String)
  | createAngleProperty (country : ℕ) (sec : String)
  | assignBeamProperty (ms : List ℕ) (prop : ℕ)
  | assignMaterialToMember (mat : String) (ms : List ℕ)
  | createMemberReleaseSpec (loc : ℕ)
  | assignMemberSpecToBeam (ms : List ℕ) (s : ℕ)
  | createSupportFixed
  | createSupportPinned
  | assignSupportToNode (ns : List ℕ) (s : ℕ)
  | createPrimaryLoad (title : String) (a c : ℕ)
  | setLoadActive (c : ℕ)
  | addSelfWeight (dir : ℕ) (f : ℝ)
  | addNodalLoad (ns : List ℕ) (fx fy fz mx my mz : ℝ)
  | addMemberUniformForce (ms : List ℕ) (dir : ℕ) (w d1 d2 d3 : ℝ)
  | createLoadCombination (title : String) (n : ℕ)
  | addLoadAndFactor (c l : ℕ) (f : ℝ)
  | performAnalysis

/-- The ordered sequence of service calls issued inside the `try` block of
`run_in_staad` (main.py:186-278) for geometry `g` and resolved unit pair
`(lu, fu)`.  Python truthiness tests on lists (`if top_ch:` etc.) become
`≠ []`; `bottom[0]`, `bottom[-1]` and `bottom[1:-1]` become `headI`,
`getLastI` and `(drop 1).dropLast`. -/
def buildTrace (cfg : Config) (g : Geometry) (lu fu : ℕ) : List SCall :=
  [SCall.connect, SCall.setInputUnits lu fu, SCall.saveModel]
  ++ g.nodes.map (fun n => SCall.createNode n.1 n.2.1 n.2.2.1 n.2.2.2)
  ++ g.members.map (fun m => SCall.createBeam m.1 m.2.1 m.2.2)
  ++ [SCall.createBeamProperty 1 cfg.chord_sec,
      SCall.createAngleProperty 1 cfg.diag_sec,
      SCall.assignBeamProperty g.botCh 1]
  ++ (if g.topCh ≠ [] then [SCall.assignBeamProperty g.topCh 1] else [])
  ++ (if g.verts ≠ [] then [SCall.assignBeamProperty g.verts 2] else [])
  ++ (if g.diags ≠ [] then [SCall.assignBeamProperty g.diags 2] else [])
  ++ [SCall.assignMaterialToMember "STEEL" ((List.range g.members.length).map (1 + ·))]
  ++ (if g.diags ≠ [] then
        [SCall.createMemberReleaseSpec 0, SCall.createMemberReleaseSpec 1,
         SCall.assignMemberSpecToBeam g.diags 1, SCall.assignMemberSpecToBeam g.diags 2]
      else [])
  ++ (if cfg.support_left = "Fixed" then [SCall.createSupportFixed]
      else [SCall.createSupportPinned])
  ++ [SCall.assignSupportToNode [g.bottom.headI] 1]
  ++ (if cfg.support_right = "Pinned" then [SCall.createSupportPinned]
      else [SCall.createSupportFixed])
  ++ [SCall.assignSupportToNode [g.bottom.getLastI] 2]
  ++ [SCall.createPrimaryLoad "DEAD AND LIVE LOAD" 0 1, SCall.setLoadActive 1]
  ++ (if cfg.self_weight then [SCall.addSelfWeight 2 (-1)] else [])
  ++ (if 0 < cfg.live_load ∧ (g.bottom.drop 1).dropLast ≠ [] then
        ((g.bottom.drop 1).dropLast).map fun n =>
          SCall.addNodalLoad [n] 0 (-cfg.live_load) 0 0 0 0
      else [])
  ++ (if 0 < cfg.dead_load then
        [SCall.addMemberUniformForce g.botCh 2 (-cfg.dead_load) 0 0 0]
      else [])
  ++ [SCall.createPrimaryLoad "WIND FROM LEFT" 3 2, SCall.setLoadActive 2]
  ++ (if 0 < cfg.wind_load then
        [SCall.addMemberUniformForce (if g.verts ≠ [] then g.verts else g.botCh) 4
          cfg.wind_load 0 0 0]
      else [])
  ++ [SCall.createLoadCombination "75 PERCENT DL LL WL" 3,
      SCall.addLoadAndFactor 3 1 0.75, SCall.addLoadAndFactor 3 2 0.75,
      SCall.saveModel, SCall.performAnalysis]

/-- `run_in_staad` (main.py:155-290), under the assumption that the
service is reachable and every service call succeeds.  The unit lookup
`UNIT_OPTIONS[unit]` (main.py:178) and the `compute_geometry` call
(main.py:180-181) execute before the `try` block starting at main.py:186,
so exceptions raised there propagate to the caller (`.error`); inside the
`try` block the happy-path trace is produced with result `True`. -/
def run_in_staad (cfg : Config) : Except String (Bool × List SCall) :=
  match UNIT_OPTIONS cfg.unit with
  | none => .error "KeyError: unit"
  | some (lu, fu) =>
    match compute_geometry cfg.span cfg.height cfg.panels cfg.bridge_type with
    | none => .error "ZeroDivisionError: division by zero"
    | some g => .ok (true, buildTrace cfg g lu fu)

/-- Calls actually issued to the service by `run_in_staad` (empty when the
exporter dies before connecting). -/
def exportCalls (cfg : Config) : List SCall :=
  match run_in_staad cfg with
  | .ok (_, t) => t
  | .error _ => []

/-- `true` exactly when `run_in_staad` lets an exception escape to its
caller instead of returning a boolean result. -/
def exportRaises (cfg : Config) : Bool :=
  match run_in_staad cfg with
  | .error _ => true
  | .ok _ => false

/-- Recognises a support-creation call. -/
def isSupportCreation : SCall → Bool
  | SCall.createSupportFixed => true
  | SCall.createSupportPinned => true
  | _ => false

/-- The support-creation calls of a trace, in order (one for the left
support, then one for the right support). -/
def supportCreations (t : List SCall) : List SCall :=
  t.filter isSupportCreation

/-- Recognises a nodal (live) load application. -/
def isNodalLoad : SCall → Bool
  | SCall.addNodalLoad _ _ _ _ _ _ _ => true
  | _ => false

/-- Whether a trace applies any nodal (live) load. -/
def containsNodalLoad (t : List SCall) : Bool := t.any isNodalLoad

/-- Recognises a member uniform force in global direction `d` (the dead
load uses direction 2, main.py:260; the wind load direction 4,
main.py:267). -/
def isUniformForceDir (d : ℕ) : SCall → Bool
  | SCall.addMemberUniformForce _ dir _ _ _ _ => dir == d
  | _ => false

/-- Whether a trace applies a member uniform force in direction `d`. -/
def containsUniformForceDir (d : ℕ) (t : List SCall) : Bool :=
  t.any (isUniformForceDir d)

/-- The GUI's default configuration (main.py:417-430). -/
def cfgDefault : Config where
  bridge_type := .pratt
  span := 120
  height := 20
  panels := 8
  unit := "Feet / Kip"
  support_left := "Fixed"
  support_right := "Pinned"
  chord_sec := "W21X50"
  diag_sec := "L40404"
  dead_load := 1.2
  live_load := 20
  wind_load := 0.6
  self_weight := true

/-- The default configuration with a malformed, negative span. -/
def cfgNegSpan : Config := { cfgDefault with span := -1 }

/-- The default configuration with `panels = 0`. -/
def cfgPanels0 : Config := { cfgDefault with panels := 0 }

/-- The default configuration with the right support set to "Roller",
one of the two choices the sidebar combo box offers (main.py:522). -/
def cfgRoller : Config := { cfgDefault with support_right := "Roller" }

/-! ## Arithmetic facts about `round4` -/

theorem round4_zero : round4 0 = 0 := by
  rw [round4]
  norm_num

theorem round4_int_div (n : ℤ) : round4 ((n : ℝ) / 10000) = (n : ℝ) / 10000 := by
  have h : ((n : ℝ) / 10000) * 10000 = (n : ℝ) := by
    field_simp
  rw [round4, h, Int.fract_intCast, if_neg (by norm_num), round_intCast]

theorem round4_idem (x : ℝ) : round4 (round4 x) = round4 x :=
  round4_int_div _

theorem round4_small : round4 (1 / 100000 : ℝ) = 0 := by
  have h : (1 / 100000 : ℝ) * 10000 = 1 / 10 := by norm_num
  have hf : Int.fract ((1 : ℝ) / 10) = 1 / 10 :=
    Int.fract_eq_self.mpr ⟨by norm_num, by norm_num⟩
  rw [round4, h, hf, if_neg (by norm_num), round_eq]
  norm_num

/-! ## List bookkeeping helpers -/

theorem mapAddRangeAdd (c a b : ℕ) :
    (List.range (a + b)).map (fun i => c + i) =
      (List.range a).map (fun i => c + i) ++ (List.range b).map (fun i => c + a + i) := by
  rw [List.range_add, List.map_append, List.map_map]
  congr 1
  apply List.map_congr_left
  intro i _
  simp only [Function.comp_apply]
  omega

theorem memMapOneAddRange (a n : ℕ) :
    a ∈ (List.range n).map (1 + ·) ↔ 1 ≤ a ∧ a ≤ n := by
  simp only [List.mem_map, List.mem_range]
  constructor
  · rintro ⟨i, hi, rfl⟩
    omega
  · rintro ⟨h1, h2⟩
    exact ⟨a - 1, by omega, by omega⟩

theorem flatMapPairEqMap {α : Type} (f g : ℕ → α) (k : ℕ) :
    (List.range k).flatMap (fun i => [f i, g i]) =
      (List.range (2 * k)).map (fun j => if j % 2 = 0 then f (j / 2) else g (j / 2)) := by
  induction k with
  | zero => simp
  | succ n ih =>
    have e1 : (if (2 * n) % 2 = 0 then f ((2 * n) / 2) else g ((2 * n) / 2))
        = f n := by
      rw [if_pos (by omega)]
      congr 1
      omega
    have e2 : (if (2 * n + 1) % 2 = 0 then f ((2 * n + 1) / 2) else g ((2 * n + 1) / 2))
        = g n := by
      rw [if_neg (by omega)]
      congr 1
      omega
    rw [List.range_add, List.flatMap_append, ih,
      show 2 * (n + 1) = 2 * n + 2 by ring, List.range_add, List.map_append, List.map_map,
      show List.range 1 = [0] from rfl, show List.range 2 = [0, 1] from rfl]
    simp only [List.map_cons, List.map_nil, List.flatMap_cons, List.flatMap_nil,
      List.append_nil, Function.comp_apply, e1, e2, Nat.add_zero]

/-! ## Closed forms for the id lists -/

theorem bottomNodesIds (s : ℝ) (p : ℕ) :
    (bottomNodes s p).map (·.1) = (List.range (p + 1)).map (1 + ·) := by
  rw [bottomNodes, List.map_map]
  rfl

theorem topNodesIds (s h : ℝ) (p : ℕ) (b : BType) :
    (topNodes s h p b).map (·.1) =
      (List.range ((match b with | BType.warren => p | _ => p + 1 : ℕ))).map
        (fun i => p + 2 + i) := by
  cases b <;> rw [topNodes, List.map_map] <;> first
  | rfl
  | decide

theorem botChMembersIds (p : ℕ) :
    (botChMembers p).map (·.1) = (List.range p).map (1 + ·) := by
  rw [botChMembers, List.map_map]
  rfl

theorem warrenTopChIds (p : ℕ) :
    (warrenTopCh p).map (·.1) = (List.range (p - 1)).map (fun i => p + 1 + i) := by
  rw [warrenTopCh, List.map_map]
  rfl

theorem topChMembersIds (p : ℕ) :
    (topChMembers p).map (·.1) = (List.range p).map (fun i => p + 1 + i) := by
  rw [topChMembers, List.map_map]
  rfl

theorem vertMembersIds (p : ℕ) :
    (vertMembers p).map (·.1) = (List.range (p + 1)).map (fun i => 2 * p + 1 + i) := by
  rw [vertMembers, List.map_map]
  rfl

theorem phDiagMembersIds (p : ℕ) (b : BType) :
    (phDiagMembers p b).map (·.1) = (List.range p).map (fun i => 3 * p + 2 + i) := by
  rw [phDiagMembers, List.map_map]
  rfl

theorem bowDiagMembersIds (p : ℕ) :
    (bowDiagMembers p).map (·.1) = (List.range p).map (fun i => 3 * p + 2 + i) := by
  rw [bowDiagMembers, List.map_map]
  rfl

theorem warrenDiagMembersIds (p : ℕ) :
    (warrenDiagMembers p).map (·.1) = (List.range (2 * p)).map (fun j => 2 * p + j) := by
  rw [warrenDiagMembers, flatMapPairEqMap, List.map_map]
  apply List.map_congr_left
  intro j hj
  rw [List.mem_range] at hj
  simp only [Function.comp_apply]
  by_cases h : j % 2 = 0
  · rw [if_pos h]
    show 2 * p + 2 * (j / 2) = 2 * p + j
    omega
  · rw [if_neg h]
    show 2 * p + 2 * (j / 2) + 1 = 2 * p + j
    omega

theorem topNodesPrattIds (s h : ℝ) (p : ℕ) :
    (topNodes s h p BType.pratt).map (·.1) =
      (List.range (p + 1)).map (fun i => p + 2 + i) := by
  rw [topNodes, List.map_map] <;> first
  | rfl
  | decide

theorem topNodesHoweIds (s h : ℝ) (p : ℕ) :
    (topNodes s h p BType.howe).map (·.1) =
      (List.range (p + 1)).map (fun i => p + 2 + i) := by
  rw [topNodes, List.map_map] <;> first
  | rfl
  | decide

theorem topNodesWarrenIds (s h : ℝ) (p : ℕ) :
    (topNodes s h p BType.warren).map (·.1) =
      (List.range p).map (fun i => p + 2 + i) := by
  rw [topNodes, List.map_map]
  rfl

theorem topNodesBowIds (s h : ℝ) (p : ℕ) :
    (topNodes s h p BType.bowstring).map (·.1) =
      (List.range (p + 1)).map (fun i => p + 2 + i) := by
  rw [topNodes, List.map_map]
  rfl

theorem warrenDiagMembersLength (p : ℕ) : (warrenDiagMembers p).length = 2 * p := by
  have hc := congrArg List.length (warrenDiagMembersIds p)
  simpa using hc

theorem bottomNodesLength (s : ℝ) (p : ℕ) : (bottomNodes s p).length = p + 1 := by
  have hc := congrArg List.length (bottomNodesIds s p)
  simpa using hc

theorem topNodesPrattLength (s h : ℝ) (p : ℕ) :
    (topNodes s h p BType.pratt).length = p + 1 := by
  have hc := congrArg List.length (topNodesPrattIds s h p)
  simpa using hc

theorem topNodesHoweLength (s h : ℝ) (p : ℕ) :
    (topNodes s h p BType.howe).length = p + 1 := by
  have hc := congrArg List.length (topNodesHoweIds s h p)
  simpa using hc

theorem topNodesWarrenLength (s h : ℝ) (p : ℕ) :
    (topNodes s h p BType.warren).length = p := by
  have hc := congrArg List.length (topNodesWarrenIds s h p)
  simpa using hc

theorem topNodesBowLength (s h : ℝ) (p : ℕ) :
    (topNodes s h p BType.bowstring).length = p + 1 := by
  have hc := congrArg List.length (topNodesBowIds s h p)
  simpa using hc

theorem botChMembersLength (p : ℕ) : (botChMembers p).length = p := by
  simp [botChMembers]

theorem warrenTopChLength (p : ℕ) : (warrenTopCh p).length = p - 1 := by
  simp [warrenTopCh]

theorem topChMembersLength (p : ℕ) : (topChMembers p).length = p := by
  simp [topChMembers]

theorem vertMembersLength (p : ℕ) : (vertMembers p).length = p + 1 := by
  simp [vertMembers]

theorem phDiagMembersLength (p : ℕ) (b : BType) : (phDiagMembers p b).length = p := by
  simp [phDiagMembers]

theorem bowDiagMembersLength (p : ℕ) : (bowDiagMembers p).length = p := by
  simp [bowDiagMembers]

theorem nodesLength (s h : ℝ) (p : ℕ) (b : BType) :
    (computeGeometryCore s h p b).nodes.length =
      ((match b with | BType.warren => 2 * p + 1 | _ => 2 * p + 2 : ℕ)) := by
  cases b
  case warren =>
    show (bottomNodes s p ++ topNodes s h p BType.warren).length = 2 * p + 1
    rw [List.length_append, bottomNodesLength, topNodesWarrenLength]
    omega
  case pratt =>
    show (bottomNodes s p ++ topNodes s h p BType.pratt).length = 2 * p + 2
    rw [List.length_append, bottomNodesLength, topNodesPrattLength]
    omega
  case howe =>
    show (bottomNodes s p ++ topNodes s h p BType.howe).length = 2 * p + 2
    rw [List.length_append, bottomNodesLength, topNodesHoweLength]
    omega
  case bowstring =>
    show (bottomNodes s p ++ topNodes s h p BType.bowstring).length = 2 * p + 2
    rw [List.length_append, bottomNodesLength, topNodesBowLength]
    omega

theorem membersLength (s h : ℝ) (p : ℕ) (b : BType) :
    (computeGeometryCore s h p b).members.length =
      ((match b with | BType.warren => 4 * p - 1 | _ => 4 * p + 1 : ℕ)) := by
  cases b
  case warren =>
    show (botChMembers p ++ (warrenTopCh p ++ warrenDiagMembers p)).length = 4 * p - 1
    rw [List.length_append, List.length_append, botChMembersLength, warrenTopChLength,
      warrenDiagMembersLength]
    omega
  case pratt =>
    show (botChMembers p ++ (topChMembers p ++ vertMembers p ++ phDiagMembers p BType.pratt)).length
      = 4 * p + 1
    rw [List.length_append, List.length_append, List.length_append, botChMembersLength,
      topChMembersLength, vertMembersLength, phDiagMembersLength]
    omega
  case howe =>
    show (botChMembers p ++ (topChMembers p ++ vertMembers p ++ phDiagMembers p BType.howe)).length
      = 4 * p + 1
    rw [List.length_append, List.length_append, List.length_append, botChMembersLength,
      topChMembersLength, vertMembersLength, phDiagMembersLength]
    omega
  case bowstring =>
    show (botChMembers p ++ (topChMembers p ++ vertMembers p ++ bowDiagMembers p)).length
      = 4 * p + 1
    rw [List.length_append, List.length_append, List.length_append, botChMembersLength,
      topChMembersLength, vertMembersLength, bowDiagMembersLength]
    omega

theorem rangeSplitOnePlus (p t : ℕ) :
    (List.range ((p + 1) + t)).map (1 + ·) =
      (List.range (p + 1)).map (1 + ·) ++ (List.range t).map (fun i => p + 2 + i) := by
  rw [mapAddRangeAdd 1 (p + 1) t]
  congr 1
  apply List.map_congr_left
  intro i _
  omega

theorem coreNodeIds (s h : ℝ) (p : ℕ) (b : BType) :
    (computeGeometryCore s h p b).nodes.map (·.1) =
      (List.range ((computeGeometryCore s h p b).nodes.length)).map (1 + ·) := by
  rw [nodesLength]
  cases b
  case warren =>
    show (bottomNodes s p ++ topNodes s h p BType.warren).map (·.1) =
      (List.range (2 * p + 1)).map (1 + ·)
    rw [List.map_append, bottomNodesIds, topNodesWarrenIds,
      show 2 * p + 1 = (p + 1) + p by omega, rangeSplitOnePlus]
  case pratt =>
    show (bottomNodes s p ++ topNodes s h p BType.pratt).map (·.1) =
      (List.range (2 * p + 2)).map (1 + ·)
    rw [List.map_append, bottomNodesIds, topNodesPrattIds,
      show 2 * p + 2 = (p + 1) + (p + 1) by omega, rangeSplitOnePlus]
  case howe =>
    show (bottomNodes s p ++ topNodes s h p BType.howe).map (·.1) =
      (List.range (2 * p + 2)).map (1 + ·)
    rw [List.map_append, bottomNodesIds, topNodesHoweIds,
      show 2 * p + 2 = (p + 1) + (p + 1) by omega, rangeSplitOnePlus]
  case bowstring =>
    show (bottomNodes s p ++ topNodes s h p BType.bowstring).map (·.1) =
      (List.range (2 * p + 2)).map (1 + ·)
    rw [List.map_append, bottomNodesIds, topNodesBowIds,
      show 2 * p + 2 = (p + 1) + (p + 1) by omega, rangeSplitOnePlus]

theorem coreMemberIds (s h : ℝ) (p : ℕ) (b : BType) :
    (computeGeometryCore s h p b).members.map (·.1) =
      (List.range ((computeGeometryCore s h p b).members.length)).map (1 + ·) := by
  rw [membersLength]
  cases b
  case warren =>
    show (botChMembers p ++ (warrenTopCh p ++ warrenDiagMembers p)).map (·.1) =
      (List.range (4 * p - 1)).map (1 + ·)
    rw [List.map_append, List.map_append, botChMembersIds, warrenTopChIds,
      warrenDiagMembersIds, show 4 * p - 1 = p + ((p - 1) + 2 * p) by omega,
      mapAddRangeAdd 1 p ((p - 1) + 2 * p), mapAddRangeAdd (1 + p) (p - 1) (2 * p)]
    congr 1
    congr 1
    · apply List.map_congr_left
      intro i _
      omega
    · apply List.map_congr_left
      intro j hj
      rw [List.mem_range] at hj
      omega
  all_goals (
    show (botChMembers p ++ (topChMembers p ++ vertMembers p ++ _)).map (·.1) =
      (List.range (4 * p + 1)).map (1 + ·)
    rw [List.map_append, List.map_append, List.map_append, botChMembersIds,
      topChMembersIds, vertMembersIds,
      show 4 * p + 1 = p + (p + ((p + 1) + p)) by omega,
      mapAddRangeAdd 1 p (p + ((p + 1) + p)),
      mapAddRangeAdd (1 + p) p ((p + 1) + p),
      mapAddRangeAdd (1 + p + p) (p + 1) p]
    first
    | rw [phDiagMembersIds]
    | rw [bowDiagMembersIds]
    simp only [List.append_assoc]
    congr 1
    congr 1
    · apply List.map_congr_left
      intro i _
      omega
    congr 1
    · apply List.map_congr_left
      intro i _
      omega
    · apply List.map_congr_left
      intro i _
      omega
    )

theorem phDiagBounds (b : BType) (p half i : ℕ) (hi : i < p) :
    (1 ≤ (phDiag b p half i).1 ∧ (phDiag b p half i).1 ≤ 2 * p + 2)
    ∧ (1 ≤ (phDiag b p half i).2 ∧ (phDiag b p half i).2 ≤ 2 * p + 2)
    ∧ (phDiag b p half i).1 ≠ (phDiag b p half i).2 := by
  cases b <;> dsimp only [phDiag, bIdx, tIdx] <;> by_cases hc : i < half <;>
    first
    | (rw [if_pos hc]; dsimp only; omega)
    | (rw [if_neg hc]; dsimp only; omega)

/-- Claim C1: for every valid input (span > 0, height > 0, panelCount ≥ 1) and
every topology in {Pratt, Warren, Howe, Bowstring}, generation succeeds and
its output satisfies: the node id list is exactly `[1, …, N]` (dense,
duplicate-free), the member id list is exactly `[1, …, M]` (dense,
duplicate-free), both endpoints of every member are valid node ids and differ
from each other, and the four role-id lists partition the member id list with
no overlap and no omission — their concatenation in the source's creation
order (bottom-chord, top-chord, vertical, diagonal) is exactly the member id
list. -/
theorem c1_invariants (s h : ℝ) (p : ℕ) (b : BType)
    (hs : 0 < s) (hh : 0 < h) (hp : 1 ≤ p) :
    compute_geometry s h p b = some (computeGeometryCore s h p b)
    ∧ (computeGeometryCore s h p b).nodes.map (·.1) =
        (List.range ((computeGeometryCore s h p b).nodes.length)).map (1 + ·)
    ∧ ((computeGeometryCore s h p b).nodes.map (·.1)).Nodup
    ∧ (computeGeometryCore s h p b).members.map (·.1) =
        (List.range ((computeGeometryCore s h p b).members.length)).map (1 + ·)
    ∧ ((computeGeometryCore s h p b).members.map (·.1)).Nodup
    ∧ (∀ m ∈ (computeGeometryCore s h p b).members,
        m.2.1 ∈ (computeGeometryCore s h p b).nodes.map (·.1)
        ∧ m.2.2 ∈ (computeGeometryCore s h p b).nodes.map (·.1)
        ∧ m.2.1 ≠ m.2.2)
    ∧ (computeGeometryCore s h p b).botCh ++ (computeGeometryCore s h p b).topCh
        ++ (computeGeometryCore s h p b).verts ++ (computeGeometryCore s h p b).diags
      = (computeGeometryCore s h p b).members.map (·.1) := by
  have hinj : Function.Injective (fun i : ℕ => 1 + i) := by
    intro a c hac
    simpa using hac
  refine ⟨?_, coreNodeIds s h p b, ?_, coreMemberIds s h p b, ?_, ?_, ?_⟩
  · rw [compute_geometry, if_neg (by omega)]
  · rw [coreNodeIds]
    exact (List.nodup_range _).map hinj
  · rw [coreMemberIds]
    exact (List.nodup_range _).map hinj
  · -- endpoints are valid node ids and distinct
    have hn := coreNodeIds s h p b
    rw [nodesLength] at hn
    intro m hm
    cases b
    case pratt =>
      rw [hn, memMapOneAddRange, memMapOneAddRange]
      have hm' : m ∈ botChMembers p ++ (topChMembers p ++ vertMembers p
          ++ phDiagMembers p BType.pratt) := hm
      simp only [List.mem_append, botChMembers, topChMembers, vertMembers, phDiagMembers,
        List.mem_map, List.mem_range] at hm'
      rcases hm' with ⟨i, hi, rfl⟩ | (⟨i, hi, rfl⟩ | ⟨i, hi, rfl⟩) | ⟨i, hi, rfl⟩
      · dsimp only [bIdx, tIdx]
        omega
      · dsimp only [bIdx, tIdx]
        omega
      · dsimp only [bIdx, tIdx]
        omega
      · exact phDiagBounds BType.pratt p (p / 2) i hi
    case howe =>
      rw [hn, memMapOneAddRange, memMapOneAddRange]
      have hm' : m ∈ botChMembers p ++ (topChMembers p ++ vertMembers p
          ++ phDiagMembers p BType.howe) := hm
      simp only [List.mem_append, botChMembers, topChMembers, vertMembers, phDiagMembers,
        List.mem_map, List.mem_range] at hm'
      rcases hm' with ⟨i, hi, rfl⟩ | (⟨i, hi, rfl⟩ | ⟨i, hi, rfl⟩) | ⟨i, hi, rfl⟩
      · dsimp only [bIdx, tIdx]
        omega
      · dsimp only [bIdx, tIdx]
        omega
      · dsimp only [bIdx, tIdx]
        omega
      · exact phDiagBounds BType.howe p (p / 2) i hi
    case bowstring =>
      rw [hn, memMapOneAddRange, memMapOneAddRange]
      have hm' : m ∈ botChMembers p ++ (topChMembers p ++ vertMembers p
          ++ bowDiagMembers p) := hm
      simp only [List.mem_append, botChMembers, topChMembers, vertMembers, bowDiagMembers,
        List.mem_map, List.mem_range] at hm'
      rcases hm' with ⟨i, hi, rfl⟩ | (⟨i, hi, rfl⟩ | ⟨i, hi, rfl⟩) | ⟨i, hi, rfl⟩ <;>
        (dsimp only [bIdx, tIdx]; omega)
    case warren =>
      rw [hn, memMapOneAddRange, memMapOneAddRange]
      have hm' : m ∈ botChMembers p ++ (warrenTopCh p ++ warrenDiagMembers p) := hm
      simp only [List.mem_append, botChMembers, warrenTopCh, warrenDiagMembers,
        List.mem_map, List.mem_range, List.mem_flatMap, List.mem_cons,
        List.not_mem_nil, or_false] at hm'
      rcases hm' with ⟨i, hi, rfl⟩ | ⟨i, hi, rfl⟩ | ⟨i, hi, rfl | rfl⟩ <;>
        (dsimp only [bIdx, tIdx]; omega)
  · -- the four role lists concatenate to the member id list
    cases b
    case warren =>
      show (botChMembers p).map (·.1) ++ (warrenTopCh p).map (·.1) ++ []
          ++ (warrenDiagMembers p).map (·.1)
        = (botChMembers p ++ (warrenTopCh p ++ warrenDiagMembers p)).map (·.1)
      simp [List.map_append, List.append_assoc]
    case pratt =>
      show (botChMembers p).map (·.1) ++ (topChMembers p).map (·.1)
          ++ (vertMembers p).map (·.1) ++ (phDiagMembers p BType.pratt).map (·.1)
        = (botChMembers p ++ (topChMembers p ++ vertMembers p
            ++ phDiagMembers p BType.pratt)).map (·.1)
      simp [List.map_append, List.append_assoc]
    case howe =>
      show (botChMembers p).map (·.1) ++ (topChMembers p).map (·.1)
          ++ (vertMembers p).map (·.1) ++ (phDiagMembers p BType.howe).map (·.1)
        = (botChMembers p ++ (topChMembers p ++ vertMembers p
            ++ phDiagMembers p BType.howe)).map (·.1)
      simp [List.map_append, List.append_assoc]
    case bowstring =>
      show (botChMembers p).map (·.1) ++ (topChMembers p).map (·.1)
          ++ (vertMembers p).map (·.1) ++ (bowDiagMembers p).map (·.1)
        = (botChMembers p ++ (topChMembers p ++ vertMembers p
            ++ bowDiagMembers p)).map (·.1)
      simp [List.map_append, List.append_assoc]

/-- Witness for C1 at the GUI default input: Pratt, span 120, height 20,
8 panels. -/
theorem c1_invariants_witness :
    compute_geometry 120 20 8 BType.pratt = some (computeGeometryCore 120 20 8 BType.pratt)
    ∧ ((computeGeometryCore 120 20 8 BType.pratt).members.map (·.1)).Nodup :=
  ⟨(c1_invariants 120 20 8 BType.pratt (by norm_num) (by norm_num) (by norm_num)).1,
   (c1_invariants 120 20 8 BType.pratt (by norm_num) (by norm_num)
      (by norm_num)).2.2.2.2.1⟩

/-- Claim C3: for every panelCount ≥ 1 with `half = panelCount // 2`
(truncating), Pratt produces exactly one diagonal per panel — ids
`3p+3, …, 4p+2` in panel order — where panel `i < half` gets the diagonal
`(top[i], bottom[i+1])` and panel `i ≥ half` gets `(bottom[i], top[i+1])`;
Howe uses exactly the opposite assignment.  The formula is stated for all
`i < p` with no parity side condition, so an odd panel count keeps the
truncated, asymmetric split unchanged. -/
theorem c3_diagonals (s h : ℝ) (p : ℕ) (hp : 1 ≤ p) :
    (computeGeometryCore s h p BType.pratt).diags =
      (List.range p).map (fun i => 3 * p + 2 + i)
    ∧ (computeGeometryCore s h p BType.howe).diags =
      (List.range p).map (fun i => 3 * p + 2 + i)
    ∧ (∀ i < p, (3 * p + 2 + i,
        if i < p / 2 then (tIdx p i, bIdx (i + 1)) else (bIdx i, tIdx p (i + 1)))
        ∈ (computeGeometryCore s h p BType.pratt).members)
    ∧ (∀ i < p, (3 * p + 2 + i,
        if i < p / 2 then (bIdx i, tIdx p (i + 1)) else (tIdx p i, bIdx (i + 1)))
        ∈ (computeGeometryCore s h p BType.howe).members) := by
  refine ⟨?_, ?_, ?_, ?_⟩
  · show (phDiagMembers p BType.pratt).map (·.1) = _
    rw [phDiagMembersIds]
  · show (phDiagMembers p BType.howe).map (·.1) = _
    rw [phDiagMembersIds]
  · intro i hi
    show _ ∈ botChMembers p ++ (topChMembers p ++ vertMembers p
      ++ phDiagMembers p BType.pratt)
    simp only [List.mem_append]
    exact Or.inr (Or.inr (List.mem_map.mpr ⟨i, List.mem_range.mpr hi, rfl⟩))
  · intro i hi
    show _ ∈ botChMembers p ++ (topChMembers p ++ vertMembers p
      ++ phDiagMembers p BType.howe)
    simp only [List.mem_append]
    exact Or.inr (Or.inr (List.mem_map.mpr ⟨i, List.mem_range.mpr hi, rfl⟩))

/-- Witness for C3 at the odd panel count 3 (`half = 1`: one descending and
two ascending Pratt diagonals, the truncated asymmetric split). -/
theorem c3_diagonals_witness :
    (computeGeometryCore 1 1 3 BType.pratt).diags =
      (List.range 3).map (fun i => 3 * 3 + 2 + i)
    ∧ (3 * 3 + 2 + 1,
        if 1 < 3 / 2 then (tIdx 3 1, bIdx 2) else (bIdx 1, tIdx 3 2))
      ∈ (computeGeometryCore 1 1 3 BType.pratt).members :=
  ⟨(c3_diagonals 1 1 3 (by norm_num)).1,
   (c3_diagonals 1 1 3 (by norm_num)).2.2.1 1 (by norm_num)⟩

/-- Claim C4: for every panelCount ≥ 1 the Warren generator produces
panelCount+1 bottom nodes, panelCount apex top nodes at
`x = round4((i + 0.5) · panelWidth)` and `y = height`, panelCount
bottom-chord members, panelCount−1 top-chord members, 2·panelCount
diagonals — for each panel `i` one `bottom[i] → top[i]` and one
`top[i] → bottom[i+1]` — and zero verticals; the totals are
`2·panelCount+1` nodes and `4·panelCount−1` members (17 and 31 for
panelCount = 8; see the witness).  Per the spec all exported coordinates
pass through the 4-decimal rounding, hence `round4` in the x formula. -/
theorem c4_warren (s h : ℝ) (p : ℕ) (hs : 0 < s) (hh : 0 < h) (hp : 1 ≤ p) :
    (computeGeometryCore s h p BType.warren).bottom.length = p + 1
    ∧ (computeGeometryCore s h p BType.warren).top.length = p
    ∧ (∀ i < p, (tIdx p i, round4 (((i : ℝ) + 0.5) * panelW s p), h, (0 : ℝ))
        ∈ (computeGeometryCore s h p BType.warren).nodes)
    ∧ (computeGeometryCore s h p BType.warren).botCh.length = p
    ∧ (computeGeometryCore s h p BType.warren).topCh.length = p - 1
    ∧ (computeGeometryCore s h p BType.warren).verts = []
    ∧ (computeGeometryCore s h p BType.warren).diags.length = 2 * p
    ∧ (∀ i < p, (2 * p + 2 * i, bIdx i, tIdx p i)
          ∈ (computeGeometryCore s h p BType.warren).members
        ∧ (2 * p + 2 * i + 1, tIdx p i, bIdx (i + 1))
          ∈ (computeGeometryCore s h p BType.warren).members)
    ∧ (computeGeometryCore s h p BType.warren).nodes.length = 2 * p + 1
    ∧ (computeGeometryCore s h p BType.warren).members.length = 4 * p - 1 := by
  refine ⟨?_, ?_, ?_, ?_, ?_, ?_, ?_, ?_, nodesLength s h p BType.warren,
    membersLength s h p BType.warren⟩
  · show ((bottomNodes s p).map (·.1)).length = p + 1
    rw [List.length_map, bottomNodesLength]
  · show ((topNodes s h p BType.warren).map (·.1)).length = p
    rw [List.length_map, topNodesWarrenLength]
  · intro i hi
    show _ ∈ bottomNodes s p ++ topNodes s h p BType.warren
    rw [List.mem_append]
    refine Or.inr ?_
    rw [topNodes]
    exact List.mem_map.mpr ⟨i, List.mem_range.mpr hi, rfl⟩
  · show ((botChMembers p).map (·.1)).length = p
    rw [List.length_map, botChMembersLength]
  · show ((warrenTopCh p).map (·.1)).length = p - 1
    rw [List.length_map, warrenTopChLength]
  · rfl
  · show ((warrenDiagMembers p).map (·.1)).length = 2 * p
    rw [List.length_map, warrenDiagMembersLength]
  · intro i hi
    constructor
    · show _ ∈ botChMembers p ++ (warrenTopCh p ++ warrenDiagMembers p)
      simp only [List.mem_append]
      refine Or.inr (Or.inr ?_)
      rw [warrenDiagMembers]
      exact List.mem_flatMap.mpr ⟨i, List.mem_range.mpr hi, by simp⟩
    · show _ ∈ botChMembers p ++ (warrenTopCh p ++ warrenDiagMembers p)
      simp only [List.mem_append]
      refine Or.inr (Or.inr ?_)
      rw [warrenDiagMembers]
      exact List.mem_flatMap.mpr ⟨i, List.mem_range.mpr hi, by simp⟩

/-- Witness for C4 at panelCount = 8: 17 nodes, 31 members (8 bottom
chords, 7 top chords, 16 diagonals), no verticals. -/
theorem c4_warren_witness :
    (computeGeometryCore 120 20 8 BType.warren).nodes.length = 17
    ∧ (computeGeometryCore 120 20 8 BType.warren).members.length = 31
    ∧ (computeGeometryCore 120 20 8 BType.warren).verts = [] := by
  have hx := c4_warren 120 20 8 (by norm_num) (by norm_num) (by norm_num)
  refine ⟨?_, ?_, hx.2.2.2.2.2.1⟩
  · have hn := hx.2.2.2.2.2.2.2.2.1
    simpa using hn
  · have hm := hx.2.2.2.2.2.2.2.2.2
    simpa using hm

theorem topNodesBowGetD (s h : ℝ) (p i : ℕ) (hi : i < p + 1) :
    (topNodes s h p BType.bowstring).getD i default =
      (tIdx p i, round4 ((i : ℝ) * panelW s p),
        round4 (h * Real.sin (((i : ℝ) / (p : ℝ)) * Real.pi)), 0) := by
  rw [topNodes, List.getD_eq_getElem?_getD, List.getElem?_map, List.getElem?_range hi]
  rfl

theorem topNodesPrattGetD (s h : ℝ) (p i : ℕ) (hi : i < p + 1) :
    (topNodes s h p BType.pratt).getD i default =
      (tIdx p i, round4 ((i : ℝ) * panelW s p), h, 0) := by
  have he : topNodes s h p BType.pratt =
      (List.range (p + 1)).map fun j =>
        (tIdx p j, round4 ((j : ℝ) * panelW s p), h, 0) := by
    rw [topNodes] <;> first
    | rfl
    | decide
  rw [he, List.getD_eq_getElem?_getD, List.getElem?_map, List.getElem?_range hi]
  rfl

theorem coreNodesGetDTop (s h : ℝ) (p : ℕ) (b : BType) (i : ℕ) :
    (computeGeometryCore s h p b).nodes.getD (p + 1 + i) default =
      (topNodes s h p b).getD i default := by
  show (bottomNodes s p ++ topNodes s h p b).getD (p + 1 + i) default = _
  rw [List.getD_append_right (bottomNodes s p) _ default (p + 1 + i)
    (by rw [bottomNodesLength]; omega), bottomNodesLength]
  congr 1
  omega

/-- Counterexample to claim C5: at the valid input span = 1,
height = 1/100000, panelCount = 2 (even), the Bowstring midspan top node —
node index 4, i.e. `top[1]` with `1 = panelCount/2` — has
`y = round4(height · sin(π/2)) = round4(1/100000) = 0 ≠ height`, because
the source rounds the sine ordinate to 4 decimals (main.py:85) and the
height has more than 4 decimal places.  The claim "the top node at
i = panelCount/2 has y == height" is therefore false as stated. -/
theorem c5_counterexample :
    (((computeGeometryCore 1 (1 / 100000) 2 BType.bowstring).nodes.getD 4 default).2.2.1)
      ≠ (1 / 100000 : ℝ) := by
  have h4 : (4 : ℕ) = 2 + 1 + 1 := by norm_num
  rw [h4, coreNodesGetDTop, topNodesBowGetD 1 (1 / 100000) 2 1 (by norm_num)]
  show round4 ((1 / 100000 : ℝ) * Real.sin (((1 : ℕ) : ℝ) / ((2 : ℕ) : ℝ) * Real.pi))
    ≠ (1 / 100000 : ℝ)
  rw [show (((1 : ℕ) : ℝ) / ((2 : ℕ) : ℝ) * Real.pi) = Real.pi / 2 by push_cast; ring,
    Real.sin_pi_div_two, mul_one, round4_small]
  norm_num

/-- Claim C5, amended: for every valid input the Bowstring generator places
panelCount+1 top nodes with `y = round4(height · sin(π·i/panelCount))`;
the first and last top nodes have y = 0 exactly, and for even panelCount
the midspan top node has `y = round4(height)` — which equals `height`
exactly when `height` is a multiple of 1/10000 (4 decimal places), but not
in general, since the source rounds the ordinate (main.py:85). -/
theorem c5_amended (s h : ℝ) (p : ℕ) (hs : 0 < s) (hh : 0 < h) (hp : 1 ≤ p) :
    (computeGeometryCore s h p BType.bowstring).top.length = p + 1
    ∧ (((computeGeometryCore s h p BType.bowstring).nodes.getD (p + 1 + 0) default).2.2.1 = 0)
    ∧ (((computeGeometryCore s h p BType.bowstring).nodes.getD (p + 1 + p) default).2.2.1 = 0)
    ∧ (p % 2 = 0 →
        ((computeGeometryCore s h p BType.bowstring).nodes.getD (p + 1 + p / 2)
          default).2.2.1 = round4 h) := by
  have hp0 : ((p : ℝ)) ≠ 0 := Nat.cast_ne_zero.mpr (by omega)
  refine ⟨?_, ?_, ?_, ?_⟩
  · show ((topNodes s h p BType.bowstring).map (·.1)).length = p + 1
    rw [List.length_map, topNodesBowLength]
  · rw [coreNodesGetDTop, topNodesBowGetD s h p 0 (by omega)]
    show round4 (h * Real.sin (((0 : ℕ) : ℝ) / ((p : ℕ) : ℝ) * Real.pi)) = 0
    rw [Nat.cast_zero, zero_div, zero_mul, Real.sin_zero, mul_zero, round4_zero]
  · rw [coreNodesGetDTop, topNodesBowGetD s h p p (by omega)]
    show round4 (h * Real.sin (((p : ℕ) : ℝ) / ((p : ℕ) : ℝ) * Real.pi)) = 0
    rw [div_self hp0, one_mul, Real.sin_pi, mul_zero, round4_zero]
  · intro hev
    rw [coreNodesGetDTop, topNodesBowGetD s h p (p / 2) (by omega)]
    show round4 (h * Real.sin (((p / 2 : ℕ) : ℝ) / ((p : ℕ) : ℝ) * Real.pi)) = round4 h
    have hcast : (((p / 2 : ℕ) : ℝ)) / ((p : ℕ) : ℝ) = 1 / 2 := by
      obtain ⟨k, hk⟩ : ∃ k, p = 2 * k := ⟨p / 2, by omega⟩
      subst hk
      have hk0 : ((k : ℝ)) ≠ 0 := Nat.cast_ne_zero.mpr (by omega)
      rw [show 2 * k / 2 = k by omega]
      push_cast
      field_simp
      ring
    rw [hcast, show (1 / 2 : ℝ) * Real.pi = Real.pi / 2 by ring,
      Real.sin_pi_div_two, mul_one]

/-- Witness for the amended C5 at span = 1, height = 1/100000,
panelCount = 2: the arch ends sit at y = 0 and the midspan node at
`round4(height)`. -/
theorem c5_amended_witness :
    (((computeGeometryCore 1 (1 / 100000) 2 BType.bowstring).nodes.getD (2 + 1 + 0)
        default).2.2.1 = 0)
    ∧ (((computeGeometryCore 1 (1 / 100000) 2 BType.bowstring).nodes.getD (2 + 1 + 2 / 2)
        default).2.2.1 = round4 (1 / 100000)) :=
  ⟨(c5_amended 1 (1 / 100000) 2 (by norm_num) (by norm_num) (by norm_num)).2.1,
   (c5_amended 1 (1 / 100000) 2 (by norm_num) (by norm_num) (by norm_num)).2.2.2
     (by norm_num)⟩

/-- Counterexample to claim C6: not every node coordinate is rounded to 4
decimal places.  At the valid input span = 1, height = 1/100000,
panelCount = 1, Pratt, the top node `top[0]` (node index 2) has
`y = float(height) = 1/100000` taken verbatim from the input
(main.py:91: the `y` of a Pratt/Howe/Warren top node is never rounded),
and `round4(1/100000) = 0 ≠ 1/100000`, so this y coordinate is not a
4-decimal value. -/
theorem c6_counterexample :
    (((computeGeometryCore 1 (1 / 100000) 1 BType.pratt).nodes.getD 2 default).2.2.1)
      ≠ round4
        (((computeGeometryCore 1 (1 / 100000) 1 BType.pratt).nodes.getD 2 default).2.2.1) := by
  have h2 : (2 : ℕ) = 1 + 1 + 0 := by norm_num
  rw [h2, coreNodesGetDTop, topNodesPrattGetD 1 (1 / 100000) 1 0 (by norm_num)]
  show (1 / 100000 : ℝ) ≠ round4 (1 / 100000 : ℝ)
  rw [round4_small]
  norm_num

/-- Claim C6, amended: every x coordinate of every node is rounded to 4
decimal places (a fixed point of `round4`), every z coordinate is 0, and
every y coordinate is either a 4-decimal value (bottom nodes have y = 0,
Bowstring top nodes have a rounded ordinate) or exactly the raw input
height (Pratt/Howe/Warren top nodes, whose `float(height)` is not rounded
by the source, main.py:80 and main.py:91). -/
theorem c6_amended (s h : ℝ) (p : ℕ) (b : BType) (hs : 0 < s) (hh : 0 < h) (hp : 1 ≤ p) :
    ∀ nd ∈ (computeGeometryCore s h p b).nodes,
      nd.2.1 = round4 nd.2.1
      ∧ (nd.2.2.1 = round4 nd.2.2.1 ∨ nd.2.2.1 = h)
      ∧ nd.2.2.2 = 0 := by
  intro nd hnd
  have hnd' : nd ∈ bottomNodes s p ++ topNodes s h p b := hnd
  rw [List.mem_append] at hnd'
  rcases hnd' with hb | ht
  · simp only [bottomNodes, List.mem_map, List.mem_range] at hb
    obtain ⟨i, hi, rfl⟩ := hb
    exact ⟨(round4_idem _).symm, Or.inl round4_zero.symm, rfl⟩
  · cases b
    case warren =>
      rw [topNodes] at ht
      simp only [List.mem_map, List.mem_range] at ht
      obtain ⟨i, hi, rfl⟩ := ht
      exact ⟨(round4_idem _).symm, Or.inr rfl, rfl⟩
    case bowstring =>
      rw [topNodes] at ht
      simp only [List.mem_map, List.mem_range] at ht
      obtain ⟨i, hi, rfl⟩ := ht
      exact ⟨(round4_idem _).symm, Or.inl (round4_idem _).symm, rfl⟩
    case pratt =>
      have he : topNodes s h p BType.pratt =
          (List.range (p + 1)).map fun j =>
            (tIdx p j, round4 ((j : ℝ) * panelW s p), h, 0) := by
        rw [topNodes] <;> first
        | rfl
        | decide
      rw [he] at ht
      simp only [List.mem_map, List.mem_range] at ht
      obtain ⟨i, hi, rfl⟩ := ht
      exact ⟨(round4_idem _).symm, Or.inr rfl, rfl⟩
    case howe =>
      have he : topNodes s h p BType.howe =
          (List.range (p + 1)).map fun j =>
            (tIdx p j, round4 ((j : ℝ) * panelW s p), h, 0) := by
        rw [topNodes] <;> first
        | rfl
        | decide
      rw [he] at ht
      simp only [List.mem_map, List.mem_range] at ht
      obtain ⟨i, hi, rfl⟩ := ht
      exact ⟨(round4_idem _).symm, Or.inr rfl, rfl⟩

/-- Witness for the amended C6 at the GUI default input (Pratt, span 120,
height 20, 8 panels), instantiated at the first bottom node. -/
theorem c6_amended_witness :
    (bIdx 0, round4 (((0 : ℕ) : ℝ) * panelW 120 8), (0 : ℝ), (0 : ℝ)).2.1
      = round4 (bIdx 0, round4 (((0 : ℕ) : ℝ) * panelW 120 8), (0 : ℝ), (0 : ℝ)).2.1
    ∧ ((bIdx 0, round4 (((0 : ℕ) : ℝ) * panelW 120 8), (0 : ℝ), (0 : ℝ)).2.2.1
        = round4 (bIdx 0, round4 (((0 : ℕ) : ℝ) * panelW 120 8), (0 : ℝ), (0 : ℝ)).2.2.1
      ∨ (bIdx 0, round4 (((0 : ℕ) : ℝ) * panelW 120 8), (0 : ℝ), (0 : ℝ)).2.2.1 = 20)
    ∧ (bIdx 0, round4 (((0 : ℕ) : ℝ) * panelW 120 8), (0 : ℝ), (0 : ℝ)).2.2.2 = 0 :=
  c6_amended 120 20 8 BType.pratt (by norm_num) (by norm_num) (by norm_num)
    (bIdx 0, round4 (((0 : ℕ) : ℝ) * panelW 120 8), (0 : ℝ), (0 : ℝ))
    (List.mem_append_left _
      (List.mem_map.mpr ⟨0, List.mem_range.mpr (by norm_num), rfl⟩))

/-! ## Trace bookkeeping helpers -/

theorem mem_ite_list {α : Type} (x : α) (c : Prop) [Decidable c] (l1 l2 : List α) :
    (x ∈ if c then l1 else l2) ↔ (c ∧ x ∈ l1) ∨ (¬c ∧ x ∈ l2) := by
  by_cases hc : c <;> simp [hc]

theorem any_ite_list {α : Type} (p : α → Bool) (c : Prop) [Decidable c] (l1 l2 : List α) :
    (if c then l1 else l2).any p = if c then l1.any p else l2.any p := by
  by_cases hc : c <;> simp [hc]

theorem filter_ite_list {α : Type} (p : α → Bool) (c : Prop) [Decidable c] (l1 l2 : List α) :
    (if c then l1 else l2).filter p = if c then l1.filter p else l2.filter p := by
  by_cases hc : c <;> simp [hc]

theorem filterMapConst {α β : Type} (p : β → Bool) (f : α → β) (l : List α)
    (h : ∀ a, p (f a) = false) : (l.map f).filter p = [] := by
  induction l with
  | nil => rfl
  | cons a t ih => simp [List.filter_cons, h a, ih]

theorem anyMapConstFalse {α β : Type} (p : β → Bool) (f : α → β) (l : List α)
    (h : ∀ a, p (f a) = false) : (l.map f).any p = false := by
  induction l with
  | nil => rfl
  | cons a t ih => simp [List.any_cons, h a, ih]

theorem anyMapConstTrue {α β : Type} (p : β → Bool) (f : α → β) (l : List α)
    (h : ∀ a, p (f a) = true) : (l.map f).any p = !l.isEmpty := by
  cases l with
  | nil => rfl
  | cons a t => simp [List.any_cons, h a]

theorem exportCallsEq (cfg : Config) (lu fu : ℕ)
    (hU : UNIT_OPTIONS cfg.unit = some (lu, fu)) (hp : cfg.panels ≠ 0) :
    exportCalls cfg =
      buildTrace cfg (computeGeometryCore cfg.span cfg.height cfg.panels cfg.bridge_type)
        lu fu := by
  simp [exportCalls, run_in_staad, hU, compute_geometry, hp]

/-- Counterexample to claim C2: at the malformed configuration with
span = −1 (height 20, 8 panels, Pratt, valid unit key), generation does
not fail — `compute_geometry` performs no validation and returns a
geometry — and the exporter is not rejected before external calls: it
connects to the service and issues the full call sequence. -/
theorem c2_counterexample :
    (compute_geometry cfgNegSpan.span cfgNegSpan.height cfgNegSpan.panels
        cfgNegSpan.bridge_type).isSome = true
    ∧ exportRaises cfgNegSpan = false
    ∧ SCall.connect ∈ exportCalls cfgNegSpan := by
  refine ⟨rfl, rfl, ?_⟩
  rw [exportCallsEq cfgNegSpan 1 0 rfl (by decide)]
  simp [buildTrace]

/-- Claim C2, amended: the source performs no `InvalidGeometry` validation
at all.  Generation fails only for panelCount = 0, where
`panel_w = span / panels` raises `ZeroDivisionError` (main.py:62); that
failure happens before the exporter contacts the service (the exception
propagates and no call is attempted, since main.py:180-181 precedes the
connection), but it is not a reported rejection.  For every
panelCount ≥ 1 generation succeeds regardless of the sign of span or
height, and the exporter proceeds to call the external modeling
service. -/
theorem c2_amended :
    (∀ (s h : ℝ) (p : ℕ) (b : BType), (compute_geometry s h p b).isSome = true ↔ p ≠ 0)
    ∧ (∀ cfg : Config, (UNIT_OPTIONS cfg.unit).isSome = true →
        (SCall.connect ∈ exportCalls cfg ↔ cfg.panels ≠ 0)) := by
  constructor
  · intro s h p b
    rw [compute_geometry]
    by_cases hp : p = 0 <;> simp [hp]
  · intro cfg hu
    obtain ⟨⟨lu, fu⟩, hU⟩ : ∃ u, UNIT_OPTIONS cfg.unit = some u := by
      cases hU2 : UNIT_OPTIONS cfg.unit
      · rw [hU2] at hu
        simp at hu
      · exact ⟨_, rfl⟩
    constructor
    · intro hmem hp0
      have hnil : exportCalls cfg = [] := by
        simp [exportCalls, run_in_staad, hU, compute_geometry, hp0]
      rw [hnil] at hmem
      simp at hmem
    · intro hp0
      rw [exportCallsEq cfg lu fu hU hp0]
      simp [buildTrace]

/-- Witness for the amended C2 at the GUI default configuration. -/
theorem c2_amended_witness :
    SCall.connect ∈ exportCalls cfgDefault ↔ cfgDefault.panels ≠ 0 :=
  c2_amended.2 cfgDefault rfl

/-- Counterexample to claim C9: with panels = 0 (and a valid unit key),
the `ZeroDivisionError` raised by `compute_geometry` — called at
main.py:180-181, before the `try` block that starts at main.py:186 —
escapes `run_in_staad` as an unhandled exception instead of being caught
and converted into a reported message with a success=false result. -/
theorem c9_counterexample : exportRaises cfgPanels0 = true := rfl

/-- Claim C9, amended: the protected region of `run_in_staad` starts only
at the `try` on main.py:186 (with the service assumed reachable and its
calls succeeding, everything inside it completes and the exporter returns
a result); the configuration-lookup step `UNIT_OPTIONS[unit]`
(main.py:178) and the geometry computation (main.py:180-181) run before
it, so exactly the exceptions raised there — an unknown unit key, or the
division by zero when panelCount = 0 — propagate to the caller as
unhandled faults. -/
theorem c9_amended (cfg : Config) :
    exportRaises cfg = false ↔
      ((UNIT_OPTIONS cfg.unit).isSome = true ∧ cfg.panels ≠ 0) := by
  unfold exportRaises run_in_staad
  cases hU : UNIT_OPTIONS cfg.unit with
  | none => simp
  | some u =>
    obtain ⟨lu, fu⟩ := u
    rw [compute_geometry]
    by_cases hp : cfg.panels = 0
    · simp [hp]
    · simp [hp]

theorem supportCreationsBuildTrace (cfg : Config) (g : Geometry) (lu fu : ℕ) :
    supportCreations (buildTrace cfg g lu fu) =
      (if cfg.support_left = "Fixed" then [SCall.createSupportFixed]
       else [SCall.createSupportPinned])
      ++ (if cfg.support_right = "Pinned" then [SCall.createSupportPinned]
          else [SCall.createSupportFixed]) := by
  have h1 : ∀ l : List (ℕ × ℝ × ℝ × ℝ),
      (l.map (fun n => SCall.createNode n.1 n.2.1 n.2.2.1 n.2.2.2)).filter
        isSupportCreation = [] :=
    fun l => filterMapConst _ _ _ (fun a => rfl)
  have h2 : ∀ l : List (ℕ × ℕ × ℕ),
      (l.map (fun m => SCall.createBeam m.1 m.2.1 m.2.2)).filter isSupportCreation = [] :=
    fun l => filterMapConst _ _ _ (fun a => rfl)
  have h3 : ∀ l : List ℕ,
      (l.map (fun n => SCall.addNodalLoad [n] 0 (-cfg.live_load) 0 0 0 0)).filter
        isSupportCreation = [] :=
    fun l => filterMapConst _ _ _ (fun a => rfl)
  rw [supportCreations, buildTrace]
  simp only [List.filter_append, filter_ite_list, h1, h2, h3]
  simp [isSupportCreation, List.filter_cons, ite_self]

/-- Claim C7 is a code bug, witnessed here: with the right support set to
"Roller" — one of the two options the sidebar offers for the right end
(main.py:522) — and every other field at the GUI default, the exporter
creates a Fixed support for the right bottom node (node 9): the source's
`if supp_r == "Pinned": ... else: CreateSupportFixed()` (main.py:243-246)
silently maps the Roller choice to Fixed, so the support types applied are
[Fixed, Fixed], not the configured [Fixed, Roller].  The left support is
created first and the two assignments go to the first and last bottom
nodes (1 and 9). -/
theorem c7_roller_bug :
    supportCreations (exportCalls cfgRoller)
      = [SCall.createSupportFixed, SCall.createSupportFixed]
    ∧ SCall.assignSupportToNode [1] 1 ∈ exportCalls cfgRoller
    ∧ SCall.assignSupportToNode [9] 2 ∈ exportCalls cfgRoller := by
  have hE := exportCallsEq cfgRoller 1 0 rfl (by decide)
  have hhead : (computeGeometryCore cfgRoller.span cfgRoller.height cfgRoller.panels
      cfgRoller.bridge_type).bottom.headI = 1 := rfl
  have hlast : (computeGeometryCore cfgRoller.span cfgRoller.height cfgRoller.panels
      cfgRoller.bridge_type).bottom.getLastI = 9 := rfl
  refine ⟨?_, ?_, ?_⟩
  · rw [hE, supportCreationsBuildTrace]
    rfl
  · rw [hE]
    rw [buildTrace, hhead]
    simp [List.mem_append]
  · rw [hE]
    rw [buildTrace, hlast]
    simp [List.mem_append]

theorem coreVertsEmptyIff (s h : ℝ) (p : ℕ) (b : BType) :
    (computeGeometryCore s h p b).verts = [] ↔ b = BType.warren := by
  cases b
  case warren => exact iff_of_true rfl rfl
  all_goals (
    show (vertMembers p).map (·.1) = [] ↔ _
    rw [vertMembersIds]
    simp)

/-- Claim C8: whenever the call sequence reaches the wind load case (the
exporter runs to completion and the wind magnitude is positive, so the
uniform load is actually applied, main.py:265-267), the wind uniform load
— the unique direction-4 member uniform force of the trace — is applied to
the vertical member group when the geometry has at least one vertical
member, and otherwise (exactly the Warren topology) to the bottom-chord
member group as a fallback. -/
theorem c8_wind (cfg : Config) (hu : (UNIT_OPTIONS cfg.unit).isSome = true)
    (hp : cfg.panels ≠ 0) (hw : 0 < cfg.wind_load) :
    ((computeGeometryCore cfg.span cfg.height cfg.panels cfg.bridge_type).verts = []
      ↔ cfg.bridge_type = BType.warren)
    ∧ SCall.addMemberUniformForce
        (if (computeGeometryCore cfg.span cfg.height cfg.panels cfg.bridge_type).verts ≠ []
         then (computeGeometryCore cfg.span cfg.height cfg.panels cfg.bridge_type).verts
         else (computeGeometryCore cfg.span cfg.height cfg.panels cfg.bridge_type).botCh)
        4 cfg.wind_load 0 0 0 ∈ exportCalls cfg
    ∧ (∀ (ms : List ℕ) (w d1 d2 d3 : ℝ),
        SCall.addMemberUniformForce ms 4 w d1 d2 d3 ∈ exportCalls cfg →
          ms = (if (computeGeometryCore cfg.span cfg.height cfg.panels
                cfg.bridge_type).verts ≠ []
              then (computeGeometryCore cfg.span cfg.height cfg.panels cfg.bridge_type).verts
              else (computeGeometryCore cfg.span cfg.height cfg.panels cfg.bridge_type).botCh)
            ∧ w = cfg.wind_load) := by
  obtain ⟨⟨lu, fu⟩, hU⟩ : ∃ u, UNIT_OPTIONS cfg.unit = some u := by
    cases hU2 : UNIT_OPTIONS cfg.unit
    · rw [hU2] at hu
      simp at hu
    · exact ⟨_, rfl⟩
  refine ⟨coreVertsEmptyIff cfg.span cfg.height cfg.panels cfg.bridge_type, ?_, ?_⟩
  · rw [exportCallsEq cfg lu fu hU hp, buildTrace]
    exact List.mem_append_left _ (List.mem_append_right _
      (by rw [if_pos hw]; exact List.mem_singleton_self _))
  · intro ms w d1 d2 d3 hmem
    rw [exportCallsEq cfg lu fu hU hp, buildTrace] at hmem
    simp only [List.mem_append, mem_ite_list, List.mem_cons, List.mem_map,
      List.not_mem_nil, or_false, and_false, false_and, false_or] at hmem
    simp only [SCall.addMemberUniformForce.injEq] at hmem
    aesop

/-- Witness for C8 at the GUI default configuration (Pratt: verticals
exist, so the wind load targets the vertical group). -/
theorem c8_wind_witness :
    SCall.addMemberUniformForce
        (if (computeGeometryCore cfgDefault.span cfgDefault.height cfgDefault.panels
              cfgDefault.bridge_type).verts ≠ []
         then (computeGeometryCore cfgDefault.span cfgDefault.height cfgDefault.panels
            cfgDefault.bridge_type).verts
         else (computeGeometryCore cfgDefault.span cfgDefault.height cfgDefault.panels
            cfgDefault.bridge_type).botCh)
        4 cfgDefault.wind_load 0 0 0 ∈ exportCalls cfgDefault :=
  (c8_wind cfgDefault rfl (by decide) (by norm_num [cfgDefault])).2.1

/-- Claim C10: both primary load cases and the factored combination are
created on every completed export, independently of the configured load
magnitudes; the live nodal loads are applied iff the live magnitude is
strictly positive and an interior bottom node exists
(`bottom[1:-1] ≠ []`), the dead uniform load (direction 2) iff the dead
magnitude is strictly positive, and the wind uniform load (direction 4)
iff the wind magnitude is strictly positive (main.py:249-272). -/
theorem c10_loads (cfg : Config) (hu : (UNIT_OPTIONS cfg.unit).isSome = true)
    (hp : cfg.panels ≠ 0) :
    SCall.createPrimaryLoad "DEAD AND LIVE LOAD" 0 1 ∈ exportCalls cfg
    ∧ SCall.createPrimaryLoad "WIND FROM LEFT" 3 2 ∈ exportCalls cfg
    ∧ SCall.createLoadCombination "75 PERCENT DL LL WL" 3 ∈ exportCalls cfg
    ∧ (containsNodalLoad (exportCalls cfg) = true ↔
        (0 < cfg.live_load
          ∧ (((computeGeometryCore cfg.span cfg.height cfg.panels
              cfg.bridge_type).bottom.drop 1).dropLast ≠ [])))
    ∧ (containsUniformForceDir 2 (exportCalls cfg) = true ↔ 0 < cfg.dead_load)
    ∧ (containsUniformForceDir 4 (exportCalls cfg) = true ↔ 0 < cfg.wind_load) := by
  obtain ⟨⟨lu, fu⟩, hU⟩ : ∃ u, UNIT_OPTIONS cfg.unit = some u := by
    cases hU2 : UNIT_OPTIONS cfg.unit
    · rw [hU2] at hu
      simp at hu
    · exact ⟨_, rfl⟩
  have hE := exportCallsEq cfg lu fu hU hp
  have h1 : ∀ l : List (ℕ × ℝ × ℝ × ℝ), ∀ q : SCall → Bool,
      (∀ a : ℕ × ℝ × ℝ × ℝ, q (SCall.createNode a.1 a.2.1 a.2.2.1 a.2.2.2) = false) →
      (l.map (fun n => SCall.createNode n.1 n.2.1 n.2.2.1 n.2.2.2)).any q = false :=
    fun l q hq => anyMapConstFalse _ _ _ hq
  have h2 : ∀ l : List (ℕ × ℕ × ℕ), ∀ q : SCall → Bool,
      (∀ a : ℕ × ℕ × ℕ, q (SCall.createBeam a.1 a.2.1 a.2.2) = false) →
      (l.map (fun m => SCall.createBeam m.1 m.2.1 m.2.2)).any q = false :=
    fun l q hq => anyMapConstFalse _ _ _ hq
  refine ⟨?_, ?_, ?_, ?_, ?_, ?_⟩
  · rw [hE, buildTrace]
    simp [List.mem_append]
  · rw [hE, buildTrace]
    simp [List.mem_append]
  · rw [hE, buildTrace]
    simp [List.mem_append]
  · rw [hE, containsNodalLoad, buildTrace]
    have h3 : ∀ l : List ℕ,
        (l.map (fun n => SCall.addNodalLoad [n] 0 (-cfg.live_load) 0 0 0 0)).any
          isNodalLoad = !l.isEmpty :=
      fun l => anyMapConstTrue _ _ _ (fun a => rfl)
    simp only [List.any_append, any_ite_list, h1 _ isNodalLoad (fun a => rfl),
      h2 _ isNodalLoad (fun a => rfl), h3, List.any_cons, List.any_nil]
    simp only [isNodalLoad, Bool.or_false, Bool.false_or, ite_self]
    by_cases hc : 0 < cfg.live_load
        ∧ (((computeGeometryCore cfg.span cfg.height cfg.panels
            cfg.bridge_type).bottom.drop 1).dropLast ≠ [])
    · rw [if_pos hc]
      simp [List.isEmpty_iff, hc.1, hc.2]
    · rw [if_neg hc]
      exact iff_of_false (by simp) hc
  · rw [hE, containsUniformForceDir, buildTrace]
    have h3 : ∀ l : List ℕ,
        (l.map (fun n => SCall.addNodalLoad [n] 0 (-cfg.live_load) 0 0 0 0)).any
          (isUniformForceDir 2) = false :=
      fun l => anyMapConstFalse _ _ _ (fun a => rfl)
    simp only [List.any_append, any_ite_list, h1 _ (isUniformForceDir 2) (fun a => rfl),
      h2 _ (isUniformForceDir 2) (fun a => rfl), h3, List.any_cons, List.any_nil]
    simp only [isUniformForceDir, Bool.or_false, Bool.false_or, ite_self]
    by_cases hc : 0 < cfg.dead_load
    · rw [if_pos hc]
      simp [hc]
    · rw [if_neg hc]
      simp [hc]
  · rw [hE, containsUniformForceDir, buildTrace]
    have h3 : ∀ l : List ℕ,
        (l.map (fun n => SCall.addNodalLoad [n] 0 (-cfg.live_load) 0 0 0 0)).any
          (isUniformForceDir 4) = false :=
      fun l => anyMapConstFalse _ _ _ (fun a => rfl)
    simp only [List.any_append, any_ite_list, h1 _ (isUniformForceDir 4) (fun a => rfl),
      h2 _ (isUniformForceDir 4) (fun a => rfl), h3, List.any_cons, List.any_nil]
    simp only [isUniformForceDir, Bool.or_false, Bool.false_or, ite_self]
    by_cases hc : 0 < cfg.wind_load
    · rw [if_pos hc]
      simp [hc]
    · rw [if_neg hc]
      simp [hc]

/-- Witness for C10 at the GUI default configuration. -/
theorem c10_loads_witness :
    SCall.createPrimaryLoad "DEAD AND LIVE LOAD" 0 1 ∈ exportCalls cfgDefault
    ∧ SCall.createPrimaryLoad "WIND FROM LEFT" 3 2 ∈ exportCalls cfgDefault
    ∧ (containsUniformForceDir 4 (exportCalls cfgDefault) = true ↔
        0 < cfgDefault.wind_load) :=
  ⟨(c10_loads cfgDefault rfl (by decide)).1,
   (c10_loads cfgDefault rfl (by decide)).2.1,
   (c10_loads cfgDefault rfl (by decide)).2.2.2.2.2⟩

end

end Motol
